import Mathlib

/-!
Verification of the Akh-Medu font builder (`scripts/build_font.py`).

The script draws 67 private-use-area glyphs from geometric primitives
(triangles, circles approximated by cubic Bezier curves, arrows, stars,
composite pictograms), keyed by a codepoint-to-name table `GLYPH_MAP`,
and assembles them into a font.  We embed the path-emission core
shallowly: a pen accumulating drawing commands becomes a list of
`PathCmd`s, Python `//` on nonnegative operands becomes `Int` division
(both are floor division for positive divisors), and Python `int()`
applied to a real product becomes truncation toward zero on `ℚ`.
-/

namespace BuildFont

/-- A pen command, as recorded by the T2 charstring pen:
`moveTo`/`lineTo`/`curveTo` with integer coordinates, `closePath` for
filled contours, `endPath` for open (stroked) contours. -/
inductive PathCmd where
  | moveTo (p : Int × Int)
  | lineTo (p : Int × Int)
  | curveTo (c1 c2 p : Int × Int)
  | closePath
  | endPath
deriving DecidableEq, Repr

/-- A glyph outline: the ordered list of commands a drawing routine emits. -/
abbrev Path := List PathCmd

-- Font metrics (monospace, 1000 UPM), from the module-level constants.
def UPM : Int := 1000
def ASCENT : Int := 800
def DESCENT : Int := -200
def ADVANCE_WIDTH : Int := 600
def M : Int := 50
def W : Int := ADVANCE_WIDTH - 2 * M
def H : Int := ASCENT - M

/-- Python `int()` on a real value: truncation toward zero. -/
def truncQ (q : ℚ) : Int := if 0 ≤ q then ⌊q⌋ else -⌊-q⌋

/-- The circle magic number `k = 0.5522847498` from `circle`. -/
def kCircle : ℚ := 5522847498 / 10000000000

/-- `triangle_up`: upward-pointing triangle centered at `(cx, cy)`. -/
def triangle_up (cx cy size : Int) : Path :=
  let half := size / 2
  [PathCmd.moveTo (cx, cy + half),
   PathCmd.lineTo (cx + half, cy - half),
   PathCmd.lineTo (cx - half, cy - half),
   PathCmd.closePath]

/-- `triangle_down`: downward-pointing triangle. -/
def triangle_down (cx cy size : Int) : Path :=
  let half := size / 2
  [PathCmd.moveTo (cx, cy - half),
   PathCmd.lineTo (cx + half, cy + half),
   PathCmd.lineTo (cx - half, cy + half),
   PathCmd.closePath]

/-- `diamond`: diamond shape. -/
def diamond (cx cy size : Int) : Path :=
  let half := size / 2
  [PathCmd.moveTo (cx, cy + half),
   PathCmd.lineTo (cx + half, cy),
   PathCmd.lineTo (cx, cy - half),
   PathCmd.lineTo (cx - half, cy),
   PathCmd.closePath]

/-- The control offset `kr = int(k * r)` computed inside `circle`. -/
def circleK (r : Int) : Int := truncQ (kCircle * (r : ℚ))

/-- `circle`: approximate circle from four cubic Bezier curves. -/
def circle (cx cy r : Int) : Path :=
  let kr := circleK r
  [PathCmd.moveTo (cx, cy + r),
   PathCmd.curveTo (cx + kr, cy + r) (cx + r, cy + kr) (cx + r, cy),
   PathCmd.curveTo (cx + r, cy - kr) (cx + kr, cy - r) (cx, cy - r),
   PathCmd.curveTo (cx - kr, cy - r) (cx - r, cy - kr) (cx - r, cy),
   PathCmd.curveTo (cx - r, cy + kr) (cx - kr, cy + r) (cx, cy + r),
   PathCmd.closePath]

/-- The half-size control offset `k = int(0.55 * half)` used by the arcs. -/
def arcK (half : Int) : Int := truncQ ((55 / 100 : ℚ) * (half : ℚ))

/-- `arc_left`: left-opening arc (subset symbol). -/
def arc_left (cx cy size : Int) : Path :=
  let half := size / 2
  let k := arcK half
  [PathCmd.moveTo (cx + half, cy + half),
   PathCmd.curveTo (cx + half - k, cy + half) (cx, cy + k) (cx, cy),
   PathCmd.curveTo (cx, cy - k) (cx + half - k, cy - half) (cx + half, cy - half),
   PathCmd.endPath]

/-- `arc_right`: right-opening arc (superset symbol). -/
def arc_right (cx cy size : Int) : Path :=
  let half := size / 2
  let k := arcK half
  [PathCmd.moveTo (cx - half, cy + half),
   PathCmd.curveTo (cx - half + k, cy + half) (cx, cy + k) (cx, cy),
   PathCmd.curveTo (cx, cy - k) (cx - half + k, cy - half) (cx - half, cy - half),
   PathCmd.endPath]

/-- `arrow_right`: right-pointing arrow, a 7-vertex closed polygon. -/
def arrow_right (cx cy size : Int) : Path :=
  let half := size / 2
  let qtr := size / 4
  [PathCmd.moveTo (cx - half, cy - qtr),
   PathCmd.lineTo (cx, cy - qtr),
   PathCmd.lineTo (cx, cy - half),
   PathCmd.lineTo (cx + half, cy),
   PathCmd.lineTo (cx, cy + half),
   PathCmd.lineTo (cx, cy + qtr),
   PathCmd.lineTo (cx - half, cy + qtr),
   PathCmd.closePath]

/-- `arrow_up`: up arrow. -/
def arrow_up (cx cy size : Int) : Path :=
  let half := size / 2
  let qtr := size / 4
  [PathCmd.moveTo (cx, cy + half),
   PathCmd.lineTo (cx + half, cy),
   PathCmd.lineTo (cx + qtr, cy),
   PathCmd.lineTo (cx + qtr, cy - half),
   PathCmd.lineTo (cx - qtr, cy - half),
   PathCmd.lineTo (cx - qtr, cy),
   PathCmd.lineTo (cx - half, cy),
   PathCmd.closePath]

/-- `arrow_down`: down arrow. -/
def arrow_down (cx cy size : Int) : Path :=
  let half := size / 2
  let qtr := size / 4
  [PathCmd.moveTo (cx, cy - half),
   PathCmd.lineTo (cx + half, cy),
   PathCmd.lineTo (cx + qtr, cy),
   PathCmd.lineTo (cx + qtr, cy + half),
   PathCmd.lineTo (cx - qtr, cy + half),
   PathCmd.lineTo (cx - qtr, cy),
   PathCmd.lineTo (cx - half, cy),
   PathCmd.closePath]

/-- `box_rect`: simple rectangle with corner `(x, y)`, width `w`, height `h`. -/
def box_rect (x y w h : Int) : Path :=
  [PathCmd.moveTo (x, y),
   PathCmd.lineTo (x + w, y),
   PathCmd.lineTo (x + w, y + h),
   PathCmd.lineTo (x, y + h),
   PathCmd.closePath]

/-- Rational model of the double-precision `math.cos` values at the star
angles `pi/2 + i*pi/5` sampled by `star_5` (`i = 0..9`). -/
def starCos (i : Nat) : ℚ :=
  match i with
  | 0 => 0
  | 1 => -5877852522924731 / 10000000000000000
  | 2 => -9510565162951535 / 10000000000000000
  | 3 => -9510565162951535 / 10000000000000000
  | 4 => -5877852522924731 / 10000000000000000
  | 5 => 0
  | 6 => 5877852522924731 / 10000000000000000
  | 7 => 9510565162951535 / 10000000000000000
  | 8 => 9510565162951535 / 10000000000000000
  | _ => 5877852522924731 / 10000000000000000

/-- Rational model of the double-precision `math.sin` values at the star
angles `pi/2 + i*pi/5` sampled by `star_5` (`i = 0..9`). -/
def starSin (i : Nat) : ℚ :=
  match i with
  | 0 => 1
  | 1 => 8090169943749475 / 10000000000000000
  | 2 => 3090169943749474 / 10000000000000000
  | 3 => -3090169943749474 / 10000000000000000
  | 4 => -8090169943749475 / 10000000000000000
  | 5 => -1
  | 6 => -8090169943749475 / 10000000000000000
  | 7 => -3090169943749474 / 10000000000000000
  | 8 => 3090169943749474 / 10000000000000000
  | _ => 8090169943749475 / 10000000000000000

/-- The `i`-th vertex computed in `star_5`'s loop: outer radius on even
`i`, inner radius on odd `i`, truncated trigonometric placement. -/
def starPoint (cx cy outer_r inner_r : Int) (i : Nat) : Int × Int :=
  let r : Int := if i % 2 == 0 then outer_r else inner_r
  (cx + truncQ ((r : ℚ) * starCos i), cy + truncQ ((r : ℚ) * starSin i))

/-- `star_5`: 5-pointed star; `moveTo points[0]` then `lineTo` through
`points[1:]`, closed. -/
def star_5 (cx cy outer_r inner_r : Int) : Path :=
  PathCmd.moveTo (starPoint cx cy outer_r inner_r 0) ::
    ((List.range 9).map fun j => PathCmd.lineTo (starPoint cx cy outer_r inner_r (j + 1)))
    ++ [PathCmd.closePath]

/-- `cross`: plus shape from a horizontal and a vertical bar. -/
def cross (cx cy size : Int) : Path :=
  let t := size / 6
  let half := size / 2
  box_rect (cx - half) (cy - t) size (2 * t) ++
  box_rect (cx - t) (cy - half) (2 * t) size

/-- `wave`: wavy line, an open stroke of two curves. -/
def wave (cx cy size : Int) : Path :=
  let half := size / 2
  let qtr := size / 4
  [PathCmd.moveTo (cx - half, cy),
   PathCmd.curveTo (cx - qtr, cy + qtr) (cx, cy + qtr) (cx, cy),
   PathCmd.curveTo (cx, cy - qtr) (cx + qtr, cy - qtr) (cx + half, cy),
   PathCmd.endPath]

/-- `dot_glyph`: small filled dot. -/
def dot_glyph (cx cy size : Int) : Path := circle cx cy (size / 6)

/-- `house`: rectangle body plus upward triangle roof at `cy + size/4`. -/
def house (cx cy size : Int) : Path :=
  let half := size / 2
  let qtr := size / 4
  box_rect (cx - half + qtr) (cy - half) half half ++
  triangle_up cx (cy + qtr) half

/-- `pillar`: vertical bar with top cap and base. -/
def pillar (cx cy size : Int) : Path :=
  let t := size / 8
  let half := size / 2
  box_rect (cx - t) (cy - half) (2 * t) size ++
  box_rect (cx - t * 2) (cy + half - t) (4 * t) t ++
  box_rect (cx - t * 2) (cy - half) (4 * t) t

/-- `person`: circle head plus closed triangle body below it. -/
def person (cx cy size : Int) : Path :=
  let head_r := size / 6
  let body_h := size / 2
  let body_w := size / 3
  circle cx (cy + size / 3) head_r ++
  [PathCmd.moveTo (cx, cy + size / 3 - head_r - 2),
   PathCmd.lineTo (cx + body_w, cy + size / 3 - head_r - body_h),
   PathCmd.lineTo (cx - body_w, cy + size / 3 - head_r - body_h),
   PathCmd.closePath]

-- Glyph cell constants used by `draw_glyph`.
def CX : Int := ADVANCE_WIDTH / 2
def CY : Int := (ASCENT + DESCENT) / 2
def SZ : Int := 400

example : CX = 300 := by decide
example : CY = 300 := by decide
example : truncQ (kCircle * (10 : ℚ)) = 5 := by norm_num [truncQ, kCircle]

/-- Rational model of the double-precision `math.cos` values at the ray
angles `i*pi/4` sampled by the `rad:sun` branch (`i = 0..7`). -/
def sunCos (i : Nat) : ℚ :=
  match i with
  | 0 => 1
  | 1 => 7071067811865476 / 10000000000000000
  | 2 => 0
  | 3 => -7071067811865476 / 10000000000000000
  | 4 => -1
  | 5 => -7071067811865476 / 10000000000000000
  | 6 => 0
  | _ => 7071067811865476 / 10000000000000000

/-- Rational model of the double-precision `math.sin` values at the ray
angles `i*pi/4` sampled by the `rad:sun` branch (`i = 0..7`). -/
def sunSin (i : Nat) : ℚ :=
  match i with
  | 0 => 0
  | 1 => 7071067811865476 / 10000000000000000
  | 2 => 1
  | 3 => 7071067811865476 / 10000000000000000
  | 4 => 0
  | 5 => -7071067811865476 / 10000000000000000
  | 6 => -1
  | _ => -7071067811865476 / 10000000000000000

/-- One ray stroke of the `rad:sun` loop: a line from radius
`sz/3 + 20` out to radius `sz/2` along the `i`-th ray angle. -/
def sunRay (cx cy sz : Int) (i : Nat) : Path :=
  [PathCmd.moveTo (cx + truncQ (((sz / 3 + 20 : Int) : ℚ) * sunCos i),
                   cy + truncQ (((sz / 3 + 20 : Int) : ℚ) * sunSin i)),
   PathCmd.lineTo (cx + truncQ (((sz / 2 : Int) : ℚ) * sunCos i),
                   cy + truncQ (((sz / 2 : Int) : ℚ) * sunSin i)),
   PathCmd.endPath]

/-- One finger stroke of the `rad:hand` loop at index `i`. -/
def handFinger (cx cy sz : Int) (i : Nat) : Path :=
  let x := cx - sz / 4 + (i : Int) * (sz / 2) / 4
  [PathCmd.moveTo (x, cy + sz / 12),
   PathCmd.lineTo (x, cy + sz / 3),
   PathCmd.endPath]

/-- `draw_glyph`: dispatch from glyph identifier to its drawing, the long
if/elif chain of the source, with the final `else` emitting the fallback
small square.  The pen's accumulated commands are the returned list. -/
def draw_glyph (glyph_name : String) : Path :=
  let cx := CX
  let cy := CY
  let sz := SZ
  -- Fixed glyphs (predicates)
  if glyph_name = "is-a" then triangle_up cx cy sz
  else if glyph_name = "part-of" then arc_left cx cy sz
  else if glyph_name = "has-a" then diamond cx cy sz
  else if glyph_name = "contains" then arc_right cx cy sz
  else if glyph_name = "parent-of" then arrow_down cx cy sz
  else if glyph_name = "child-of" then arrow_up cx cy sz
  else if glyph_name = "similar-to" then
    wave cx (cy + 40) sz ++ wave cx (cy - 40) sz
  else if glyph_name = "causes" then arrow_right cx cy sz
  else if glyph_name = "precedes" then
    let half := sz / 2
    [PathCmd.moveTo (cx + half / 2, cy + half),
     PathCmd.lineTo (cx - half / 2, cy),
     PathCmd.lineTo (cx + half / 2, cy - half),
     PathCmd.endPath]
  else if glyph_name = "located-in" then house cx cy sz
  else if glyph_name = "created-by" then
    let half := sz / 2
    [PathCmd.moveTo (cx - half, cy - half),
     PathCmd.lineTo (cx + half, cy + half),
     PathCmd.endPath] ++
    triangle_up (cx + half - 30) (cy + half - 30) 60
  else if glyph_name = "depends-on" then arrow_right cx cy sz
  else if glyph_name = "opposes" then
    let t := sz / 8
    let half := sz / 2
    box_rect (cx - half) (cy + half - t) sz t ++
    box_rect (cx - t) (cy - half) (2 * t) sz
  else if glyph_name = "enables" then arrow_right cx cy sz
  else if glyph_name = "knows" then
    circle cx cy (sz / 2) ++ circle cx cy (sz / 4)
  -- Type determinatives
  else if glyph_name = "type:person" then person cx cy sz
  else if glyph_name = "type:place" then house cx cy sz
  else if glyph_name = "type:thing" then
    box_rect (cx - sz / 3) (cy - sz / 3) (sz * 2 / 3) (sz * 2 / 3)
  else if glyph_name = "type:concept" then
    circle cx (cy + 40) (sz / 3) ++ box_rect (cx - 30) (cy - sz / 4) 60 40
  else if glyph_name = "type:event" then
    let half := sz / 2
    [PathCmd.moveTo (cx, cy + half),
     PathCmd.lineTo (cx + half / 3, cy),
     PathCmd.lineTo (cx - half / 6, cy),
     PathCmd.lineTo (cx, cy - half),
     PathCmd.lineTo (cx - half / 3, cy),
     PathCmd.lineTo (cx + half / 6, cy),
     PathCmd.closePath]
  else if glyph_name = "type:quantity" then
    let t := sz / 10
    let third := sz / 3
    box_rect (cx - third) (cy - sz / 2) t sz ++
    box_rect (cx + third - t) (cy - sz / 2) t sz ++
    box_rect (cx - sz / 2) (cy - third + t) sz t ++
    box_rect (cx - sz / 2) (cy + third - t) sz t
  else if glyph_name = "type:time" then
    circle cx cy (sz / 2) ++
    [PathCmd.moveTo (cx, cy), PathCmd.lineTo (cx, cy + sz / 3), PathCmd.endPath] ++
    [PathCmd.moveTo (cx, cy), PathCmd.lineTo (cx + sz / 4, cy), PathCmd.endPath]
  else if glyph_name = "type:group" then
    let r := sz / 6
    circle (cx - r * 2) cy r ++ circle cx cy r ++ circle (cx + r * 2) cy r
  else if glyph_name = "type:process" then circle cx cy (sz / 3)
  else if glyph_name = "type:property" then
    let t := sz / 10
    box_rect (cx - sz / 3) (cy + (-sz) / 4 - t / 2) (sz * 2 / 3) t ++
    box_rect (cx - sz / 3) (cy + 0 - t / 2) (sz * 2 / 3) t ++
    box_rect (cx - sz / 3) (cy + sz / 4 - t / 2) (sz * 2 / 3) t
  -- Provenance
  else if glyph_name = "prov:asserted" then diamond cx cy sz
  else if glyph_name = "prov:inferred" then diamond cx cy sz
  else if glyph_name = "prov:fused" then
    circle cx cy (sz / 2) ++ cross cx cy (sz / 2)
  else if glyph_name = "prov:discovered" then star_5 cx cy (sz / 2) (sz / 4)
  else if glyph_name = "prov:gap" then
    circle cx (cy + sz / 4) (sz / 4) ++ dot_glyph cx (cy - sz / 3) sz
  -- Structural
  else if glyph_name = "struct:triple" then
    let half := sz / 2
    [PathCmd.moveTo (cx + half / 2, cy + half),
     PathCmd.lineTo (cx - half / 2, cy),
     PathCmd.lineTo (cx + half / 2, cy - half),
     PathCmd.endPath]
  else if glyph_name = "struct:end" then
    let half := sz / 2
    [PathCmd.moveTo (cx - half / 2, cy + half),
     PathCmd.lineTo (cx + half / 2, cy),
     PathCmd.lineTo (cx - half / 2, cy - half),
     PathCmd.endPath]
  else if glyph_name = "struct:chain" then
    let t := sz / 10
    box_rect (cx - sz / 2) (cy - t / 2) sz t
  else if glyph_name = "struct:branch" then
    let t := sz / 10
    let half := sz / 2
    box_rect (cx - t) (cy - half) (2 * t) sz ++
    box_rect cx (cy - t / 2) half t
  else if glyph_name = "struct:confidence" then circle cx cy (sz / 3)
  -- Radicals (beings)
  else if glyph_name = "rad:eye" then
    let half := sz / 2
    let k := half / 2
    [PathCmd.moveTo (cx - half, cy),
     PathCmd.curveTo (cx - k, cy + k) (cx + k, cy + k) (cx + half, cy),
     PathCmd.curveTo (cx + k, cy - k) (cx - k, cy - k) (cx - half, cy),
     PathCmd.closePath] ++
    circle cx cy (sz / 8)
  else if glyph_name = "rad:bird" then
    let half := sz / 2
    [PathCmd.moveTo (cx - half, cy),
     PathCmd.curveTo (cx - half / 2, cy + half) (cx, cy + half / 2) (cx, cy),
     PathCmd.endPath,
     PathCmd.moveTo (cx, cy),
     PathCmd.curveTo (cx, cy + half / 2) (cx + half / 2, cy + half) (cx + half, cy),
     PathCmd.endPath]
  else if glyph_name = "rad:serpent" then wave cx cy sz
  else if glyph_name = "rad:fish" then
    circle (cx - 20) cy (sz / 3) ++
    (let half := sz / 3
     [PathCmd.moveTo (cx + half, cy),
      PathCmd.lineTo (cx + half + half / 2, cy + half / 2),
      PathCmd.lineTo (cx + half + half / 2, cy - half / 2),
      PathCmd.closePath])
  else if glyph_name = "rad:hand" then
    box_rect (cx - sz / 4) (cy - sz / 4) (sz / 2) (sz / 3) ++
    ((List.range 5).map (handFinger cx cy sz)).flatten
  else if glyph_name = "rad:foot" then
    circle cx (cy - 30) (sz / 3) ++
    box_rect (cx - sz / 6) (cy - sz / 3) (sz / 3) (sz / 4)
  else if glyph_name = "rad:face" then
    circle cx cy (sz / 2) ++
    circle (cx - sz / 6) (cy + sz / 8) (sz / 16) ++
    circle (cx + sz / 6) (cy + sz / 8) (sz / 16)
  else if glyph_name = "rad:figure" then person cx cy sz
  -- Radicals (nature)
  else if glyph_name = "rad:sun" then
    circle cx cy (sz / 3) ++ ((List.range 8).map (sunRay cx cy sz)).flatten
  else if glyph_name = "rad:moon" then circle cx cy (sz / 2)
  else if glyph_name = "rad:water" then
    wave cx (cy + 40) sz ++ wave cx cy sz ++ wave cx (cy - 40) sz
  else if glyph_name = "rad:mountain" then
    triangle_up (cx - sz / 4) cy (sz / 2) ++
    triangle_up (cx + sz / 4) (cy - sz / 8) (sz * 3 / 4)
  else if glyph_name = "rad:tree" then
    triangle_up cx (cy + sz / 6) (sz / 2) ++
    box_rect (cx - sz / 16) (cy - sz / 3) (sz / 8) (sz / 3)
  else if glyph_name = "rad:fire" then triangle_up cx cy sz
  else if glyph_name = "rad:wind" then
    wave cx (cy + (-40)) sz ++ wave cx (cy + 0) sz ++ wave cx (cy + 40) sz
  else if glyph_name = "rad:earth" then
    circle cx cy (sz / 2) ++ cross cx cy sz
  -- Radicals (structure)
  else if glyph_name = "rad:house" then house cx cy sz
  else if glyph_name = "rad:pillar" then pillar cx cy sz
  else if glyph_name = "rad:arch" then
    let half := sz / 2
    let k := arcK half
    [PathCmd.moveTo (cx - half, cy - half),
     PathCmd.lineTo (cx - half, cy),
     PathCmd.curveTo (cx - half, cy + k) (cx - k, cy + half) (cx, cy + half),
     PathCmd.curveTo (cx + k, cy + half) (cx + half, cy + k) (cx + half, cy),
     PathCmd.lineTo (cx + half, cy - half),
     PathCmd.endPath]
  else if glyph_name = "rad:wall" then
    box_rect (cx - sz / 2) (cy - sz / 4) sz (sz / 2)
  else if glyph_name = "rad:gate" then
    let t := sz / 8
    let half := sz / 2
    box_rect (cx - half) (cy - half) t sz ++
    box_rect (cx + half - t) (cy - half) t sz ++
    box_rect (cx - half) (cy + half - t) sz t
  else if glyph_name = "rad:path" then
    let t := sz / 12
    box_rect (cx - sz / 2) (cy + t) sz t ++
    box_rect (cx - sz / 2) (cy - 2 * t) sz t
  else if glyph_name = "rad:bridge" then
    let half := sz / 2
    let k := arcK half
    let t := sz / 10
    [PathCmd.moveTo (cx - half, cy),
     PathCmd.curveTo (cx - half, cy + k) (cx - k, cy + half / 2) (cx, cy + half / 2),
     PathCmd.curveTo (cx + k, cy + half / 2) (cx + half, cy + k) (cx + half, cy),
     PathCmd.endPath] ++
    box_rect (cx - half) (cy - half) t half ++
    box_rect (cx + half - t) (cy - half) t half
  else if glyph_name = "rad:tower" then circle cx cy (sz / 2)
  -- Radicals (abstract)
  else if glyph_name = "rad:ankh" then
    let t := sz / 10
    circle cx (cy + sz / 4) (sz / 5) ++
    box_rect (cx - t) (cy - sz / 3) (2 * t) (sz / 2) ++
    box_rect (cx - sz / 4) cy (sz / 2) t
  else if glyph_name = "rad:spiral" then
    circle cx cy (sz / 3) ++
    [PathCmd.moveTo (cx + sz / 3, cy),
     PathCmd.curveTo (cx + sz / 2, cy + sz / 4) (cx + sz / 4, cy + sz / 2) (cx, cy + sz / 3),
     PathCmd.endPath]
  else if glyph_name = "rad:star" then star_5 cx cy (sz / 2) (sz / 4)
  else if glyph_name = "rad:arrow" then arrow_right cx cy sz
  else if glyph_name = "rad:loop" then
    let r := sz / 4
    circle (cx - r) cy r ++ circle (cx + r) cy r
  else if glyph_name = "rad:cross" then cross cx cy sz
  else if glyph_name = "rad:wave" then wave cx cy sz
  else if glyph_name = "rad:dot" then dot_glyph cx cy sz
  else
    -- Fallback: small square
    box_rect (cx - 20) (cy - 20) 40 40

/-- `GLYPH_MAP`: codepoint-to-glyph-name table, in the source's literal
order (35 fixed glyphs, then 32 radicals). -/
def GLYPH_MAP : List (Nat × String) :=
  [(0xE000, "is-a"),        (0xE001, "part-of"),     (0xE002, "has-a"),
   (0xE003, "contains"),    (0xE004, "parent-of"),   (0xE005, "child-of"),
   (0xE006, "similar-to"),  (0xE007, "causes"),      (0xE008, "precedes"),
   (0xE009, "located-in"),  (0xE00A, "created-by"),  (0xE00B, "depends-on"),
   (0xE00C, "opposes"),     (0xE00D, "enables"),     (0xE00E, "knows"),
   (0xE00F, "type:person"), (0xE010, "type:place"),  (0xE011, "type:thing"),
   (0xE012, "type:concept"),(0xE013, "type:event"),  (0xE014, "type:quantity"),
   (0xE015, "type:time"),   (0xE016, "type:group"),  (0xE017, "type:process"),
   (0xE018, "type:property"),
   (0xE019, "prov:asserted"),   (0xE01A, "prov:inferred"),
   (0xE01B, "prov:fused"),      (0xE01C, "prov:discovered"),
   (0xE01D, "prov:gap"),
   (0xE01E, "struct:triple"),   (0xE01F, "struct:end"),
   (0xE020, "struct:chain"),    (0xE021, "struct:branch"),
   (0xE022, "struct:confidence"),
   (0xE100, "rad:eye"),     (0xE101, "rad:bird"),    (0xE102, "rad:serpent"),
   (0xE103, "rad:fish"),    (0xE104, "rad:hand"),    (0xE105, "rad:foot"),
   (0xE106, "rad:face"),    (0xE107, "rad:figure"),
   (0xE108, "rad:sun"),     (0xE109, "rad:moon"),    (0xE10A, "rad:water"),
   (0xE10B, "rad:mountain"),(0xE10C, "rad:tree"),    (0xE10D, "rad:fire"),
   (0xE10E, "rad:wind"),    (0xE10F, "rad:earth"),
   (0xE110, "rad:house"),   (0xE111, "rad:pillar"),  (0xE112, "rad:arch"),
   (0xE113, "rad:wall"),    (0xE114, "rad:gate"),    (0xE115, "rad:path"),
   (0xE116, "rad:bridge"),  (0xE117, "rad:tower"),
   (0xE118, "rad:ankh"),    (0xE119, "rad:spiral"),  (0xE11A, "rad:star"),
   (0xE11B, "rad:arrow"),   (0xE11C, "rad:loop"),    (0xE11D, "rad:cross"),
   (0xE11E, "rad:wave"),    (0xE11F, "rad:dot")]

/-- The 67 glyph identifiers `draw_glyph` recognizes, in dispatch order;
any other identifier falls through to the final `else` branch. -/
def registeredNames : List String :=
  ["is-a", "part-of", "has-a", "contains", "parent-of", "child-of",
   "similar-to", "causes", "precedes", "located-in", "created-by",
   "depends-on", "opposes", "enables", "knows",
   "type:person", "type:place", "type:thing", "type:concept", "type:event",
   "type:quantity", "type:time", "type:group", "type:process", "type:property",
   "prov:asserted", "prov:inferred", "prov:fused", "prov:discovered", "prov:gap",
   "struct:triple", "struct:end", "struct:chain", "struct:branch",
   "struct:confidence",
   "rad:eye", "rad:bird", "rad:serpent", "rad:fish", "rad:hand", "rad:foot",
   "rad:face", "rad:figure",
   "rad:sun", "rad:moon", "rad:water", "rad:mountain", "rad:tree", "rad:fire",
   "rad:wind", "rad:earth",
   "rad:house", "rad:pillar", "rad:arch", "rad:wall", "rad:gate", "rad:path",
   "rad:bridge", "rad:tower",
   "rad:ankh", "rad:spiral", "rad:star", "rad:arrow", "rad:loop", "rad:cross",
   "rad:wave", "rad:dot"]

/-- One uppercase hexadecimal digit. -/
def hexDigit (n : Nat) : Char :=
  if n < 10 then Char.ofNat (48 + n) else Char.ofNat (55 + n)

/-- The f-string `f"uni{cp:04X}"`: `uni` followed by the codepoint as four
uppercase hexadecimal digits. -/
def uniName (cp : Nat) : String :=
  "uni" ++ String.mk [hexDigit (cp / 4096 % 16), hexDigit (cp / 256 % 16),
                      hexDigit (cp / 16 % 16), hexDigit (cp % 16)]

/-- Insert an entry into a key-sorted association list. -/
def insertByKey (x : Nat × String) : List (Nat × String) → List (Nat × String)
  | [] => [x]
  | y :: ys => if x.1 ≤ y.1 then x :: y :: ys else y :: insertByKey x ys

/-- Python `sorted(GLYPH_MAP.items())`: the entries sorted by codepoint
(keys are distinct, so lexicographic tuple order is key order). -/
def sortByKey (l : List (Nat × String)) : List (Nat × String) :=
  l.foldr insertByKey []

/-- `glyph_names` as assembled by `build_font`: `.notdef`, `space`, then
`uniXXXX` for each codepoint of the sorted `GLYPH_MAP`. -/
def glyphNames : List String :=
  [".notdef", "space"] ++ (sortByKey GLYPH_MAP).map (fun e => uniName e.1)

/-- The character map assembled by `build_font`: `0x20 -> space`, then each
mapped codepoint to its `uniXXXX` glyph name, in sorted order. -/
def cmap : List (Nat × String) :=
  (0x20, "space") :: (sortByKey GLYPH_MAP).map (fun e => (e.1, uniName e.1))

/-- The `.notdef` outline drawn in `build_font`'s charstring loop. -/
def notdefOutline : Path := box_rect 100 0 400 700

/-- The `space` outline from `build_font`'s charstring loop: nothing. -/
def spaceOutline : Path := []

/-- Is the command a subpath-opening `moveTo`? -/
def isMove : PathCmd → Bool
  | PathCmd.moveTo _ => true
  | _ => false

/-- Is the command a cubic Bezier segment? -/
def isCurve : PathCmd → Bool
  | PathCmd.curveTo _ _ _ => true
  | _ => false

/-- Subpath-termination checker.  `closedExp` is the expected terminator
kind (`true` = `closePath`, `false` = `endPath`); the `Bool` state records
whether a subpath is currently open.  Accepts exactly the paths in which
every subpath is opened by a `moveTo` and terminated by the expected
terminator, with drawing commands only between the two. -/
def subOk (closedExp : Bool) : Bool → List PathCmd → Bool
  | inside, [] => !inside
  | inside, PathCmd.moveTo _ :: cs => !inside && subOk closedExp true cs
  | inside, PathCmd.lineTo _ :: cs => inside && subOk closedExp inside cs
  | inside, PathCmd.curveTo _ _ _ :: cs => inside && subOk closedExp inside cs
  | inside, PathCmd.closePath :: cs => closedExp && inside && subOk closedExp false cs
  | inside, PathCmd.endPath :: cs => !closedExp && inside && subOk closedExp false cs

/-- Every subpath of `p` terminates with `closePath` (if `closedExp`) or
with `endPath` (otherwise). -/
def pathTerm (closedExp : Bool) (p : Path) : Bool := subOk closedExp false p

/-- The point a `moveTo` at the head of the path starts at, if any. -/
def pathStart (p : Path) : Option (Int × Int) :=
  match p with
  | PathCmd.moveTo q :: _ => some q
  | _ => none

/-- The last on-curve point reached by the path's drawing commands. -/
def lastPoint (p : Path) : Option (Int × Int) :=
  (p.filterMap fun c =>
    match c with
    | PathCmd.moveTo q => some q
    | PathCmd.lineTo q => some q
    | PathCmd.curveTo _ _ q => some q
    | _ => none).getLast?

/-- Any identifier outside the 67 registered names falls through every
branch of the dispatch to the fallback square. -/
lemma draw_glyph_unregistered (name : String) (h : name ∉ registeredNames) :
    draw_glyph name = box_rect (CX - 20) (CY - 20) 40 40 := by
  simp only [registeredNames, List.mem_cons, List.mem_singleton, not_or] at h
  obtain ⟨h1, h2, h3, h4, h5, h6, h7, h8, h9, h10, h11, h12, h13, h14, h15, h16, h17, h18, h19, h20, h21, h22, h23, h24, h25, h26, h27, h28, h29, h30, h31, h32, h33, h34, h35, h36, h37, h38, h39, h40, h41, h42, h43, h44, h45, h46, h47, h48, h49, h50, h51, h52, h53, h54, h55, h56, h57, h58, h59, h60, h61, h62, h63, h64, h65, h66, h67, -⟩ := h
  simp only [draw_glyph, if_neg h1, if_neg h2, if_neg h3, if_neg h4, if_neg h5, if_neg h6, if_neg
    h7, if_neg h8, if_neg h9, if_neg h10, if_neg h11, if_neg h12, if_neg h13, if_neg h14, if_neg
    h15, if_neg h16, if_neg h17, if_neg h18, if_neg h19, if_neg h20, if_neg h21, if_neg h22, if_neg
    h23, if_neg h24, if_neg h25, if_neg h26, if_neg h27, if_neg h28, if_neg h29, if_neg h30, if_neg
    h31, if_neg h32, if_neg h33, if_neg h34, if_neg h35, if_neg h36, if_neg h37, if_neg h38, if_neg
    h39, if_neg h40, if_neg h41, if_neg h42, if_neg h43, if_neg h44, if_neg h45, if_neg h46, if_neg
    h47, if_neg h48, if_neg h49, if_neg h50, if_neg h51, if_neg h52, if_neg h53, if_neg h54, if_neg
    h55, if_neg h56, if_neg h57, if_neg h58, if_neg h59, if_neg h60, if_neg h61, if_neg h62, if_neg
    h63, if_neg h64, if_neg h65, if_neg h66, if_neg h67]

/-! ## Claim theorems -/

/-- C1: `GLYPH_MAP` has exactly 67 entries; exactly 35 codepoints lie in
`[0xE000, 0xE022]`, exactly 32 in `[0xE100, 0xE11F]`, none outside the two
ranges, and no codepoint repeats. -/
theorem glyph_map_coverage :
    GLYPH_MAP.length = 67 ∧
    (GLYPH_MAP.map Prod.fst).countP
      (fun c => decide (0xE000 ≤ c ∧ c ≤ 0xE022)) = 35 ∧
    (GLYPH_MAP.map Prod.fst).countP
      (fun c => decide (0xE100 ≤ c ∧ c ≤ 0xE11F)) = 32 ∧
    (GLYPH_MAP.map Prod.fst).countP
      (fun c => decide (¬((0xE000 ≤ c ∧ c ≤ 0xE022) ∨
                          (0xE100 ≤ c ∧ c ≤ 0xE11F)))) = 0 ∧
    (GLYPH_MAP.map Prod.fst).Nodup := by
  refine ⟨by decide, by decide, by decide, by decide, by decide⟩

/-- C2 (amended): requesting a glyph identifier that is not one of the 67
registered names does not fail; the dispatch silently emits the fallback
placeholder square `box_rect (cx-20) (cy-20) 40 40`, a nonempty command
sequence. -/
theorem unregistered_emits_fallback (name : String)
    (h : name ∉ registeredNames) :
    draw_glyph name = box_rect (CX - 20) (CY - 20) 40 40 ∧
    draw_glyph name ≠ ([] : Path) := by
  refine ⟨draw_glyph_unregistered name h, ?_⟩
  rw [draw_glyph_unregistered name h]
  simp [box_rect]

theorem unregistered_emits_fallback_witness :
    "unknown-pred" ∉ registeredNames ∧
    (draw_glyph "unknown-pred" = box_rect (CX - 20) (CY - 20) 40 40 ∧
     draw_glyph "unknown-pred" ≠ ([] : Path)) :=
  ⟨by decide, unregistered_emits_fallback "unknown-pred" (by decide)⟩

/-- C2 counterexample: at the concrete non-registered identifier
`"no-such-glyph"`, the dispatch emits placeholder path commands (the small
square) rather than failing, so the claimed `RegistryLookupFailure` does
not occur. -/
theorem unregistered_raises_counterexample :
    "no-such-glyph" ∉ registeredNames ∧
    draw_glyph "no-such-glyph" =
      [PathCmd.moveTo (280, 280), PathCmd.lineTo (320, 280),
       PathCmd.lineTo (320, 320), PathCmd.lineTo (280, 320),
       PathCmd.closePath] ∧
    draw_glyph "no-such-glyph" ≠ ([] : Path) := by
  refine ⟨by decide, by decide, by decide⟩

/-- C3: every non-registered identifier draws exactly one closed square
subpath of side 40 from `(cx-20, cy-20)` — i.e. centered on the cell
center — and nothing else. -/
theorem fallback_square_shape (name : String)
    (h : name ∉ registeredNames) :
    draw_glyph name =
      [PathCmd.moveTo (CX - 20, CY - 20),
       PathCmd.lineTo (CX - 20 + 40, CY - 20),
       PathCmd.lineTo (CX - 20 + 40, CY - 20 + 40),
       PathCmd.lineTo (CX - 20, CY - 20 + 40),
       PathCmd.closePath] ∧
    pathTerm true (draw_glyph name) = true ∧
    (draw_glyph name).countP isMove = 1 := by
  have hf := draw_glyph_unregistered name h
  rw [hf]
  exact ⟨rfl, rfl, rfl⟩

theorem fallback_square_shape_witness :
    "akh" ∉ registeredNames ∧
    (draw_glyph "akh" =
      [PathCmd.moveTo (CX - 20, CY - 20),
       PathCmd.lineTo (CX - 20 + 40, CY - 20),
       PathCmd.lineTo (CX - 20 + 40, CY - 20 + 40),
       PathCmd.lineTo (CX - 20, CY - 20 + 40),
       PathCmd.closePath] ∧
     pathTerm true (draw_glyph "akh") = true ∧
     (draw_glyph "akh").countP isMove = 1) :=
  ⟨by decide, fallback_square_shape "akh" (by decide)⟩

/-- C4: for every center and nonnegative radius, `circle` emits exactly
one closed subpath made of four cubic Bezier segments whose control
offset is within one unit of `round(0.5522847498 * r)`, starting and
ending exactly at `(cx, cy + r)`. -/
theorem circle_bezier_approx (cx cy r : Int) (hr : 0 ≤ r) :
    pathTerm true (circle cx cy r) = true ∧
    (circle cx cy r).countP isMove = 1 ∧
    (circle cx cy r).countP isCurve = 4 ∧
    (circle cx cy r)[1]? = some (PathCmd.curveTo (cx + circleK r, cy + r)
      (cx + r, cy + circleK r) (cx + r, cy)) ∧
    pathStart (circle cx cy r) = some (cx, cy + r) ∧
    lastPoint (circle cx cy r) = some (cx, cy + r) ∧
    |circleK r - round (kCircle * (r : ℚ))| ≤ 1 := by
  refine ⟨rfl, rfl, rfl, rfl, rfl, rfl, ?_⟩
  have hq : (0 : ℚ) ≤ kCircle * (r : ℚ) :=
    mul_nonneg (by norm_num [kCircle]) (by exact_mod_cast hr)
  have hk : circleK r = ⌊kCircle * (r : ℚ)⌋ := by
    simp only [circleK, truncQ, if_pos hq]
  have h1 : ⌊kCircle * (r : ℚ)⌋ ≤ round (kCircle * (r : ℚ)) := by
    rw [round_eq]
    exact Int.floor_mono (by linarith)
  have h2 : round (kCircle * (r : ℚ)) ≤ ⌊kCircle * (r : ℚ)⌋ + 1 := by
    rw [round_eq]
    calc ⌊kCircle * (r : ℚ) + 1 / 2⌋ ≤ ⌊kCircle * (r : ℚ) + 1⌋ :=
          Int.floor_mono (by linarith)
      _ = ⌊kCircle * (r : ℚ)⌋ + 1 := Int.floor_add_one _
  rw [hk, abs_le]
  omega

theorem circle_bezier_approx_witness :
    (0 : Int) ≤ 10 ∧
    (pathTerm true (circle 0 0 10) = true ∧
     (circle 0 0 10).countP isMove = 1 ∧
     (circle 0 0 10).countP isCurve = 4 ∧
     (circle 0 0 10)[1]? = some (PathCmd.curveTo (0 + circleK 10, 0 + 10)
       (0 + 10, 0 + circleK 10) (0 + 10, 0)) ∧
     pathStart (circle 0 0 10) = some (0, 0 + 10) ∧
     lastPoint (circle 0 0 10) = some (0, 0 + 10) ∧
     |circleK 10 - round (kCircle * ((10 : Int) : ℚ))| ≤ 1) :=
  ⟨by norm_num, circle_bezier_approx 0 0 10 (by norm_num)⟩

/-- C5 counterexample: at radius 10 the circle's emitted control offset is
`int(0.5522847498 * 10) = 5`, but the nearest integer to the exact value
`5.522847498` is `6` — coordinates are truncated, not rounded to
nearest. -/
theorem circle_offset_not_nearest :
    circleK 10 = 5 ∧
    round (kCircle * ((10 : Int) : ℚ)) = 6 ∧
    (circle 0 0 10)[1]? = some (PathCmd.curveTo (5, 10) (10, 5) (10, 0)) ∧
    circleK 10 ≠ round (kCircle * ((10 : Int) : ℚ)) := by
  refine ⟨?_, ?_, ?_, ?_⟩ <;>
    norm_num [circle, circleK, truncQ, kCircle, round_eq]

/-- C5 (amended): real-valued coordinates are truncated toward zero by
Python `int()` before emission; for the circle's control offset with
nonnegative radius this is the floor of the exact product, which
underapproximates `0.5522847498 * r` by less than one unit. -/
theorem circle_offset_truncation (r : Int) (hr : 0 ≤ r) :
    ((circleK r : Int) : ℚ) ≤ kCircle * (r : ℚ) ∧
    kCircle * (r : ℚ) - 1 < ((circleK r : Int) : ℚ) := by
  have hq : (0 : ℚ) ≤ kCircle * (r : ℚ) :=
    mul_nonneg (by norm_num [kCircle]) (by exact_mod_cast hr)
  have hk : circleK r = ⌊kCircle * (r : ℚ)⌋ := by
    simp only [circleK, truncQ, if_pos hq]
  rw [hk]
  exact ⟨Int.floor_le _, Int.sub_one_lt_floor _⟩

theorem circle_offset_truncation_witness :
    (0 : Int) ≤ 10 ∧
    (((circleK 10 : Int) : ℚ) ≤ kCircle * ((10 : Int) : ℚ) ∧
     kCircle * ((10 : Int) : ℚ) - 1 < ((circleK 10 : Int) : ℚ)) :=
  ⟨by norm_num, circle_offset_truncation 10 (by norm_num)⟩

/-- C6: codepoint `0xE000` resolves to `is-a`, which draws exactly one
closed triangle subpath with vertices `(cx, cy+half)`, `(cx+half,
cy-half)`, `(cx-half, cy-half)` for `half = size/2`, in that order. -/
theorem codepoint_E000_is_a_triangle :
    List.lookup 0xE000 GLYPH_MAP = some "is-a" ∧
    draw_glyph "is-a" =
      [PathCmd.moveTo (CX, CY + SZ / 2),
       PathCmd.lineTo (CX + SZ / 2, CY - SZ / 2),
       PathCmd.lineTo (CX - SZ / 2, CY - SZ / 2),
       PathCmd.closePath] ∧
    pathTerm true (draw_glyph "is-a") = true ∧
    (draw_glyph "is-a").countP isMove = 1 :=
  ⟨rfl, rfl, rfl, rfl⟩

/-- C7: codepoint `0xE009` resolves to `located-in`, drawn as the `house`
pictogram: exactly two closed subpaths, first the rectangle body, then the
upward triangle roof centered `size/4` above the cell center. -/
theorem codepoint_E009_located_in_house :
    List.lookup 0xE009 GLYPH_MAP = some "located-in" ∧
    draw_glyph "located-in" =
      box_rect (CX - SZ / 2 + SZ / 4) (CY - SZ / 2) (SZ / 2) (SZ / 2) ++
      triangle_up CX (CY + SZ / 4) (SZ / 2) ∧
    (draw_glyph "located-in").countP isMove = 2 ∧
    pathTerm true (draw_glyph "located-in") = true :=
  ⟨rfl, rfl, rfl, rfl⟩

/-- C8: the assembled glyph order is `.notdef` (one closed rectangle
outline), `space` (empty outline), then the 67 `uniXXXX` names in strictly
ascending codepoint order; the character map covers exactly
`{0x20} ∪ {0xE000..0xE022} ∪ {0xE100..0xE11F}`. -/
theorem font_glyph_order_and_cmap :
    glyphNames = [".notdef", "space"] ++
      ((List.range' 0xE000 35 ++ List.range' 0xE100 32).map uniName) ∧
    glyphNames.length = 69 ∧
    notdefOutline =
      [PathCmd.moveTo (100, 0), PathCmd.lineTo (500, 0),
       PathCmd.lineTo (500, 700), PathCmd.lineTo (100, 700),
       PathCmd.closePath] ∧
    pathTerm true notdefOutline = true ∧
    notdefOutline.countP isMove = 1 ∧
    spaceOutline = ([] : Path) ∧
    cmap = (0x20, "space") ::
      ((List.range' 0xE000 35 ++ List.range' 0xE100 32).map
        fun cp => (cp, uniName cp)) := by
  refine ⟨by decide, by decide, by decide, by decide, by decide, rfl, by decide⟩

/-- C9: for every center and size, the filled primitives (triangles,
diamond, rectangle, star, cross) terminate every subpath with `closePath`,
while the stroke primitives (arcs, wave) terminate with `endPath`. -/
theorem primitive_subpath_terminators (cx cy size x y w h orad irad : Int) :
    pathTerm true (triangle_up cx cy size) = true ∧
    pathTerm true (triangle_down cx cy size) = true ∧
    pathTerm true (diamond cx cy size) = true ∧
    pathTerm true (box_rect x y w h) = true ∧
    pathTerm true (star_5 cx cy orad irad) = true ∧
    pathTerm true (cross cx cy size) = true ∧
    (cross cx cy size).countP isMove = 2 ∧
    pathTerm false (arc_left cx cy size) = true ∧
    pathTerm false (arc_right cx cy size) = true ∧
    pathTerm false (wave cx cy size) = true :=
  ⟨rfl, rfl, rfl, rfl, rfl, rfl, rfl, rfl, rfl, rfl⟩

/-- C10: each of the fourteen listed glyph-identifier pairs dispatches to
an identical drawing call, so the two outlines are byte-identical. -/
theorem duplicate_outline_pairs :
    draw_glyph "causes" = draw_glyph "enables" ∧
    draw_glyph "causes" = draw_glyph "depends-on" ∧
    draw_glyph "causes" = draw_glyph "rad:arrow" ∧
    draw_glyph "has-a" = draw_glyph "prov:asserted" ∧
    draw_glyph "prov:asserted" = draw_glyph "prov:inferred" ∧
    draw_glyph "precedes" = draw_glyph "struct:triple" ∧
    draw_glyph "located-in" = draw_glyph "type:place" ∧
    draw_glyph "located-in" = draw_glyph "rad:house" ∧
    draw_glyph "type:process" = draw_glyph "struct:confidence" ∧
    draw_glyph "rad:moon" = draw_glyph "rad:tower" ∧
    draw_glyph "type:person" = draw_glyph "rad:figure" ∧
    draw_glyph "prov:discovered" = draw_glyph "rad:star" ∧
    draw_glyph "rad:serpent" = draw_glyph "rad:wave" ∧
    draw_glyph "is-a" = draw_glyph "rad:fire" :=
  ⟨rfl, rfl, rfl, rfl, rfl, rfl, rfl, rfl, rfl, rfl, rfl, rfl, rfl, rfl⟩

end BuildFont

